import Mathlib

/-!
Verification of the `stt` subtitle-generation command (`src/cmd.py`).

The per-file pipeline of `cmd.py` is embedded shallowly:

* pure text processing (`write_srt`'s cleaning, filtering, formatting and
  numbering of recognized segments) becomes pure Lean functions on
  `String` / `List Char`, with seconds as exact rationals;
* the effectful parts (`process_file`, `convert_to_wav`, `main`) become
  functions over an explicit environment `Env` describing the outcomes of
  the external collaborators (model load, ffmpeg, transcription, disk
  write) and an explicit filesystem `FS` (the set of existing paths).

Python-semantics notes, used throughout:

* `str.strip()` strips Unicode whitespace; `pyIsSpace` models the
  whitespace set (ASCII whitespace, the C1 separators, NBSP and the
  Unicode space/separator block), which covers every character the
  claims exercise. The regex class `\s` is modelled by the same set.
* the regex class `\d` on a `str` pattern matches every Unicode decimal
  digit (general category Nd); `pyIsDecimalDigit` carries the full Nd
  table (Unicode 14.0, as shipped with Python 3.11: 660 characters).
* Python `int()` truncates toward zero (`pyInt`).
* float division by zero raises `ZeroDivisionError` in Python, so the
  progress computation of `write_srt` is embedded in `Except`.
-/

namespace Stt

/-- Python whitespace (for `str.strip()` and the regex class `\s`). -/
def pyIsSpace (c : Char) : Bool :=
  c.toNat = 9 || c.toNat = 10 || c.toNat = 11 || c.toNat = 12 || c.toNat = 13 ||
  (28 ≤ c.toNat && c.toNat ≤ 32) || c.toNat = 0x85 || c.toNat = 0xA0 ||
  c.toNat = 0x1680 || (0x2000 ≤ c.toNat && c.toNat ≤ 0x200A) ||
  c.toNat = 0x2028 || c.toNat = 0x2029 || c.toNat = 0x202F ||
  c.toNat = 0x205F || c.toNat = 0x3000

/-- `str.strip()` on a character list: drop whitespace from both ends. -/
def pyStrip (l : List Char) : List Char :=
  ((l.dropWhile pyIsSpace).reverse.dropWhile pyIsSpace).reverse

/-- The codepoint ranges of the Unicode general category Nd (decimal digit),
Unicode 14.0 as shipped with Python 3.11: 61 ranges of ten digits plus the
fifty mathematical digits at 1D7CE–1D7FF, 660 characters in all. Python's
regex class `\d` on a `str` pattern matches exactly these. -/
def ndRanges : List (Nat × Nat) :=
  [(0x30, 0x39), (0x660, 0x669), (0x6F0, 0x6F9), (0x7C0, 0x7C9),
   (0x966, 0x96F), (0x9E6, 0x9EF), (0xA66, 0xA6F), (0xAE6, 0xAEF),
   (0xB66, 0xB6F), (0xBE6, 0xBEF), (0xC66, 0xC6F), (0xCE6, 0xCEF),
   (0xD66, 0xD6F), (0xDE6, 0xDEF), (0xE50, 0xE59), (0xED0, 0xED9),
   (0xF20, 0xF29), (0x1040, 0x1049), (0x1090, 0x1099), (0x17E0, 0x17E9),
   (0x1810, 0x1819), (0x1946, 0x194F), (0x19D0, 0x19D9), (0x1A80, 0x1A89),
   (0x1A90, 0x1A99), (0x1B50, 0x1B59), (0x1BB0, 0x1BB9), (0x1C40, 0x1C49),
   (0x1C50, 0x1C59), (0xA620, 0xA629), (0xA8D0, 0xA8D9), (0xA900, 0xA909),
   (0xA9D0, 0xA9D9), (0xA9F0, 0xA9F9), (0xAA50, 0xAA59), (0xABF0, 0xABF9),
   (0xFF10, 0xFF19), (0x104A0, 0x104A9), (0x10D30, 0x10D39),
   (0x11066, 0x1106F), (0x110F0, 0x110F9), (0x11136, 0x1113F),
   (0x111D0, 0x111D9), (0x112F0, 0x112F9), (0x11450, 0x11459),
   (0x114D0, 0x114D9), (0x11650, 0x11659), (0x116C0, 0x116C9),
   (0x11730, 0x11739), (0x118E0, 0x118E9), (0x11950, 0x11959),
   (0x11C50, 0x11C59), (0x11D50, 0x11D59), (0x11DA0, 0x11DA9),
   (0x16A60, 0x16A69), (0x16AC0, 0x16AC9), (0x16B50, 0x16B59),
   (0x1D7CE, 0x1D7FF), (0x1E140, 0x1E149), (0x1E2F0, 0x1E2F9),
   (0x1E950, 0x1E959), (0x1FBF0, 0x1FBF9)]

/-- Python's regex class `\d`: membership in the Unicode Nd category. -/
def pyIsDecimalDigit (c : Char) : Bool :=
  ndRanges.any (fun r => r.1 ≤ c.toNat && c.toNat ≤ r.2)

/-- The apostrophe character, target of `.replace('&#39;', "'")`. -/
def apos : Char := Char.ofNat 39

/-- `str.replace('&#39;', "'")`: replace every (non-overlapping, leftmost)
occurrence of the five characters `&#39;` by an apostrophe. -/
def replace39 : List Char → List Char
  | '&' :: '#' :: '3' :: '9' :: ';' :: rest => apos :: replace39 rest
  | c :: rest => c :: replace39 rest
  | [] => []

/-- `re.sub(r'&#\d+;', '', text)`, one scan step per fuel unit: at `&#` with
one or more digits and a closing `;` the whole entity is deleted and the
scan resumes after it; otherwise the scan advances one character. Every
recursive call is on a strictly shorter list, so `fuel = l.length` (as
`subEntities` passes) always suffices and the `0` case is never reached
from `subEntities`; the fuel only makes the recursion structural. -/
def subEntitiesAux : ℕ → List Char → List Char
  | 0, l => l
  | fuel + 1, l =>
      match l with
      | '&' :: '#' :: rest =>
          let ds := rest.takeWhile pyIsDecimalDigit
          match rest.dropWhile pyIsDecimalDigit with
          | ';' :: tail =>
              if ds.isEmpty then '&' :: subEntitiesAux fuel ('#' :: rest)
              else subEntitiesAux fuel tail
          | _ => '&' :: subEntitiesAux fuel ('#' :: rest)
      | c :: rest => c :: subEntitiesAux fuel rest
      | [] => []

/-- `re.sub(r'&#\d+;', '', text)`: delete every leftmost, non-overlapping
occurrence of `&`, `#`, one or more digits, `;` (replacing it with the
empty string). -/
def subEntities (l : List Char) : List Char :=
  subEntitiesAux l.length l

/-- Lines 96–97 of `cmd.py`:
`text = segment.text.strip().replace('&#39;', "'")` then
`text = re.sub(r'&#\d+;', '', text)`. -/
def cleanText (t : String) : String :=
  String.mk (subEntities (replace39 (pyStrip t.data)))

/-- The character class of the noise regex on line 99 of `cmd.py`,
`[，。、？‘’“”；：（｛｝【】）:;"'\s \d` + backtick + `!@#$%^&*()_+=.,?/\-]`,
as a list of code points (the `\s` and `\d` classes are handled in
`noiseChar`). -/
def noiseCodes : List Nat :=
  [0xFF0C, 0x3002, 0x3001, 0xFF1F, 0x2018, 0x2019, 0x201C, 0x201D,
   0xFF1B, 0xFF1A, 0xFF08, 0xFF5B, 0xFF5D, 0x3010, 0x3011, 0xFF09,
   0x3A, 0x3B, 0x22, 0x27, 0x20, 0x60, 0x21, 0x40, 0x23, 0x24, 0x25,
   0x5E, 0x26, 0x2A, 0x28, 0x29, 0x5F, 0x2B, 0x3D, 0x2E, 0x2C, 0x3F,
   0x2F, 0x5C, 0x2D]

/-- Membership in the noise character class. -/
def noiseChar (c : Char) : Bool :=
  c.toNat ∈ noiseCodes || pyIsSpace c || pyIsDecimalDigit c

/-- `re.match(r'^[…]*$', text)` is truthy exactly when every character of
`text` lies in the class (`$` also matches before a final newline, but a
newline is itself in the class, so the two readings agree). -/
def noiseMatch (t : String) : Bool :=
  t.data.all noiseChar

/-- The emission condition on line 99 of `cmd.py`:
`if text and not re.match(r'^[…]*$', text)`. -/
def acceptText (t : String) : Bool :=
  !t.isEmpty && !noiseMatch t

/-- Python `int()` applied to an exact rational: truncation toward zero. -/
def pyInt (q : ℚ) : ℤ :=
  if 0 ≤ q then ⌊q⌋ else ⌈q⌉

/-- A recognized segment: start and end times in seconds, raw text.
(`end` is a Lean keyword, hence `end_`.) -/
structure Segment where
  start : ℚ
  end_ : ℚ
  text : String
  deriving Repr, DecidableEq

/-- Left-pad a numeral to two digits. -/
def pad2 (n : ℕ) : String :=
  if n < 10 then "0" ++ toString n else toString n

/-- Left-pad a numeral to three digits. -/
def pad3 (n : ℕ) : String :=
  if n < 10 then "00" ++ toString n
  else if n < 100 then "0" ++ toString n else toString n

/-- Modelled from the spec: `tool.ms_to_time_string` lives in the `stslib`
helper package of this repository, which is not under `src/`; the spec
says a timestamp is rendered as hours:minutes:seconds,milliseconds with
two-digit zero-padded hour/minute/second fields and a three-digit
zero-padded millisecond field. -/
def ms_to_time_string (ms : ℤ) : String :=
  let t := ms.toNat
  pad2 (t / 3600000) ++ ":" ++ pad2 (t % 3600000 / 60000) ++ ":" ++
    pad2 (t % 60000 / 1000) ++ "," ++ pad3 (t % 1000)

/-- Line 94 of `cmd.py`: `tool.ms_to_time_string(ms=int(segment.start * 1000))`. -/
def startTimeOf (s : Segment) : String :=
  ms_to_time_string (pyInt (s.start * 1000))

/-- Line 95 of `cmd.py`: `tool.ms_to_time_string(ms=int(segment.end * 1000))`. -/
def endTimeOf (s : Segment) : String :=
  ms_to_time_string (pyInt (s.end_ * 1000))

/-- One subtitle block, line 100 of `cmd.py`:
`f'{len(srt_content) + 1}\n{startTime} --> {endTime}\n{text}\n'`. -/
def mkBlock (idx : ℕ) (startT endT text : String) : String :=
  toString idx ++ "\n" ++ startT ++ " --> " ++ endT ++ "\n" ++ text ++ "\n"

/-- The message of Python's `ZeroDivisionError` on float division by zero,
raised by `segment.end / total_duration` when the total duration is 0. -/
def zeroDivMsg : String := "float division by zero"

/-- `os.path.splitext(p)[0]`: everything before the last-dot extension of
the basename; a dot belonging to the leading-dot run of the basename (as in
`.bashrc`) does not start an extension. -/
def splitextFst (p : String) : String :=
  let rev := p.data.reverse
  let extRev := rev.takeWhile (fun c => c ≠ '.' && c ≠ '/')
  match rev.drop extRev.length with
  | '.' :: restRev =>
      if (restRev.takeWhile (fun c => c ≠ '/')).any (fun c => c ≠ '.') then
        String.mk restRev.reverse
      else p
  | _ => p

/-- Line 103 of `cmd.py`: `os.path.splitext(original_filename)[0] + ".srt"`. -/
def srtPathOf (original_filename : String) : String :=
  splitextFst original_filename ++ ".srt"

/-- The per-segment loop of `write_srt` (lines 90–100 of `cmd.py`), carrying
the accumulated `srt_content` list. The progress computation
`segment.end / total_duration` raises `ZeroDivisionError` when the total
duration is zero (the progress value itself is only logged). -/
def srtLoop (total_duration : ℚ) : List Segment → List String → Except String (List String)
  | [], acc => .ok acc
  | seg :: rest, acc =>
      if total_duration = 0 then .error zeroDivMsg
      else
        let startTime := startTimeOf seg
        let endTime := endTimeOf seg
        let text := cleanText seg.text
        if acceptText text then
          srtLoop total_duration rest
            (acc ++ [mkBlock (acc.length + 1) startTime endTime text])
        else
          srtLoop total_duration rest acc

/-- The outcome of `write_srt` when no exception is raised: the single
file write it performs (path and full content), or the warning it logs
when no segment survived the filter. -/
structure WriteResult where
  written : Option (String × String)
  warning : Option String
  deriving Repr, DecidableEq

/-- `write_srt` (lines 87–109 of `cmd.py`): run the segment loop; if any
blocks were accumulated, write them joined by a newline (each block already
ends in one, so blocks are blank-line separated) to the `.srt` path derived
from the original filename, else log the no-valid-segments warning. -/
def write_srt (segments : List Segment) (original_filename : String)
    (total_duration : ℚ) : Except String WriteResult :=
  match srtLoop total_duration segments [] with
  | .error e => .error e
  | .ok srt_content =>
      if !srt_content.isEmpty then
        .ok ⟨some (srtPathOf original_filename,
               String.intercalate "\n" srt_content), none⟩
      else
        .ok ⟨none, some ("No valid segments found for " ++ original_filename)⟩

/-- Specification-side closed form of the loop's accumulator: the blocks
produced from the remaining segments when `n` blocks were already emitted. -/
def blocksFrom (n : ℕ) : List Segment → List String
  | [] => []
  | seg :: rest =>
      let text := cleanText seg.text
      if acceptText text then
        mkBlock (n + 1) (startTimeOf seg) (endTimeOf seg) text :: blocksFrom (n + 1) rest
      else blocksFrom n rest

/-- Line 51 of `cmd.py`: `language=language if language != 'auto' else None`. -/
def transcribeLanguageArg (language : String) : Option String :=
  if language ≠ "auto" then some language else none

/-- Line 52 of `cmd.py`:
`initial_prompt=sets.get('initial_prompt_zh') if language == 'zh' else None`. -/
def transcribeInitialPromptArg (initial_prompt_zh : String) (language : String) :
    Option String :=
  if language = "zh" then some initial_prompt_zh else none

/-! ## The effectful layer

The filesystem is the set of existing paths; the external collaborators
(model load, ffmpeg, recognition, the subtitle-file write) are described
by an environment record giving each call's outcome for one input file. -/

/-- The filesystem: the set of paths that currently exist. -/
abbrev FS := Finset String

/-- Outcomes of the external calls made while processing one input file. -/
structure Env where
  /-- `WhisperModel(...)`/`cfg.parse_ini()` (lines 32–39): `some e` when model
  construction raises with message `e`. -/
  modelLoadError : Option String
  /-- The unique path `tempfile.NamedTemporaryFile(suffix=".wav")` allocates
  (line 68); the file is created on disk at allocation. -/
  tmpPath : String
  /-- `tool.runffmpeg(params)` (line 80): the collaborator's result string;
  anything but `"ok"` makes `convert_to_wav` raise `RuntimeError`. -/
  ffmpegResult : String
  /-- `model.transcribe(...)` (lines 45–53): the segment list and total
  duration, or the exception it raises. -/
  transcribeResult : Except String (List Segment × ℚ)
  /-- `open(srt_file, 'w').write(...)` (lines 104–105): `some e` when the
  write raises `IOError` with message `e`. -/
  writeError : Option String

/-- What the `try` block of `process_file` (lines 31–56) computes: the
caught error if any, whether the temporary wav file was created on disk,
whether the local variable `wav_file` was assigned (these differ when
`convert_to_wav` raises after `NamedTemporaryFile` already created the
file), and the subtitle write performed. -/
structure TryResult where
  err : Option String
  tmpCreated : Bool
  wavAssigned : Bool
  written : Option (String × String)
  deriving Repr, DecidableEq

/-- The `try` block of `process_file`, stage by stage. -/
def tryStage (env : Env) (input_file : String) : TryResult :=
  match env.modelLoadError with
  | some e => ⟨some e, false, false, none⟩
  | none =>
      -- convert_to_wav (lines 66–84): NamedTemporaryFile(delete=False)
      -- creates the temp file first; a non-"ok" ffmpeg result raises
      -- RuntimeError before the path is returned, so the assignment
      -- `wav_file = convert_to_wav(input_file)` never happens.
      if env.ffmpegResult ≠ "ok" then
        ⟨some ("FFmpeg error: " ++ env.ffmpegResult), true, false, none⟩
      else
        match env.transcribeResult with
        | .error e => ⟨some e, true, true, none⟩
        | .ok (segments, duration) =>
            match write_srt segments input_file duration with
            | .error e => ⟨some e, true, true, none⟩
            | .ok r =>
                match r.written with
                | none => ⟨none, true, true, none⟩
                | some pc =>
                    match env.writeError with
                    | some e => ⟨some e, true, true, none⟩
                    | none => ⟨none, true, true, some pc⟩

/-- `process_file` (lines 28–63): run the `try` block, apply its filesystem
effects, then the `finally` block (lines 60–63): delete the temporary file
when `wav_file` is assigned and the path still exists. Returns the final
filesystem and the error logged by the `except` clause, if any. -/
def process_file (env : Env) (input_file model_name language : String)
    (fs : FS) : FS × Option String :=
  let r := tryStage env input_file
  let fs1 := if r.tmpCreated then insert env.tmpPath fs else fs
  let fs2 := match r.written with
    | some pc => insert pc.1 fs1
    | none => fs1
  let fs3 := if r.wavAssigned ∧ env.tmpPath ∈ fs2 then fs2.erase env.tmpPath else fs2
  (fs3, r.err)

/-- The batch loop of `main` (lines 121–122): process each input file in
list order, threading the filesystem, collecting each file's outcome. -/
def batch (envOf : String → Env) (model_name language : String) :
    List String → FS → FS × List (String × Option String)
  | [], fs => (fs, [])
  | f :: rest, fs =>
      let st := process_file (envOf f) f model_name language fs
      let next := batch envOf model_name language rest st.1
      (next.1, (f, st.2) :: next.2)

/-- The usage message printed on line 114 of `cmd.py`. -/
def usageMsg : String :=
  "Usage: python script.py <model_name> <language> <input_files...>"

/-- `main(args)` (lines 112–122): with fewer than three arguments, print the
usage message and `sys.exit(1)` before touching any file; otherwise process
every input file in order. -/
def main (envOf : String → Env) (args : List String) (fs : FS) :
    Except (ℕ × String) (FS × List (String × Option String)) :=
  if h : args.length < 3 then .error (1, usageMsg)
  else
    let model_name := args.get ⟨0, by omega⟩
    let language := args.get ⟨1, by omega⟩
    let input_files := args.drop 2
    .ok (batch envOf model_name language input_files fs)

end Stt

namespace Stt

/-- Helper: with a nonzero total duration the segment loop never raises, and
returns the accumulator extended by the blocks of the remaining segments. -/
theorem srtLoop_eq_blocksFrom (total_duration : ℚ) (hd : total_duration ≠ 0) :
    ∀ (segs : List Segment) (acc : List String),
      srtLoop total_duration segs acc = .ok (acc ++ blocksFrom acc.length segs)
  | [], acc => by simp [srtLoop, blocksFrom]
  | seg :: rest, acc => by
      rw [srtLoop, blocksFrom]
      simp only [if_neg hd]
      by_cases h : acceptText (cleanText seg.text) = true
      · rw [if_pos h, if_pos h, srtLoop_eq_blocksFrom total_duration hd rest _]
        simp [List.length_append]
      · rw [if_neg h, if_neg h, srtLoop_eq_blocksFrom total_duration hd rest acc]

/-- Helper: the blocks of the remaining segments are exactly the accepted
segments, numbered consecutively from `n + 1` in emission order. -/
theorem blocksFrom_eq_enumFrom : ∀ (segs : List Segment) (n : ℕ),
    blocksFrom n segs =
      ((segs.filter fun s => acceptText (cleanText s.text)).enumFrom (n + 1)).map
        (fun p => mkBlock p.1 (startTimeOf p.2) (endTimeOf p.2) (cleanText p.2.text))
  | [], n => by simp [blocksFrom]
  | seg :: rest, n => by
      rw [blocksFrom]
      by_cases h : acceptText (cleanText seg.text) = true
      · rw [if_pos h]
        simp only [List.filter_cons, h, if_true, List.enumFrom_cons, List.map_cons]
        rw [blocksFrom_eq_enumFrom rest (n + 1)]
      · rw [if_neg h]
        have h' : acceptText (cleanText seg.text) = false := by simpa using h
        simp only [List.filter_cons, h', Bool.false_eq_true, if_false]
        rw [blocksFrom_eq_enumFrom rest n]

/-- Helper: the batch outcome list pairs every input file, in list order,
with the outcome of its own try block. -/
theorem batch_snd (envOf : String → Env) (model_name language : String) :
    ∀ (files : List String) (fs : FS),
      (batch envOf model_name language files fs).2 =
        files.map (fun f => (f, (tryStage (envOf f) f).err))
  | [], _ => rfl
  | f :: rest, fs => by
      show (f, (process_file (envOf f) f model_name language fs).2) ::
          (batch envOf model_name language rest
            (process_file (envOf f) f model_name language fs).1).2 = _
      rw [batch_snd envOf model_name language rest]
      rfl

/-- Helper: a file whose try block ended in a caught error performed no
subtitle write. -/
theorem tryStage_err_no_write (env : Env) (input_file e : String)
    (h : (tryStage env input_file).err = some e) :
    (tryStage env input_file).written = none := by
  unfold tryStage at h ⊢
  repeat' split <;> simp_all


/-- C1 (code_bug evidence): when the transcode step fails, `convert_to_wav`
raises after `NamedTemporaryFile` has already created the temporary `.wav`
file but before its path is assigned to `wav_file`, so the `finally` block
deletes nothing: after processing, the temporary file is still on disk,
contradicting the claim that it is absent on every exit path. -/
theorem process_file_transcode_failure_leaks_tmp :
    (process_file ⟨none, "/tmp/tmpw1.wav", "transcode failed", .ok ([], 1), none⟩
        "video.mp4" "small" "zh" ∅).2 = some "FFmpeg error: transcode failed" ∧
    "/tmp/tmpw1.wav" ∈
      (process_file ⟨none, "/tmp/tmpw1.wav", "transcode failed", .ok ([], 1), none⟩
        "video.mp4" "small" "zh" ∅).1 := by
  refine ⟨rfl, ?_⟩
  decide

/-- C2: the batch outcome list pairs every file of the batch, in list order,
with the caught outcome of its own try block (so a failure of file i never
prevents files i+1..n from being attempted), and a caught error always
means that file performed no subtitle write. -/
theorem batch_attempts_every_file :
    (∀ (envOf : String → Env) (model_name language : String)
        (files : List String) (fs : FS),
      (batch envOf model_name language files fs).2 =
        files.map (fun f => (f, (tryStage (envOf f) f).err))) ∧
    (∀ (env : Env) (input_file e : String),
      (tryStage env input_file).err = some e →
      (tryStage env input_file).written = none) :=
  ⟨batch_snd, tryStage_err_no_write⟩

/-- C2 witness: a batch of two files whose model load always fails still
attempts both files, and the failing try block wrote nothing. -/
theorem batch_attempts_every_file_witness :
    (batch (fun _ => ⟨some "model load failed", "/tmp/t.wav", "ok", .ok ([], 1), none⟩)
        "small" "zh" ["a.mp4", "b.mp4"] ∅).2 =
      [("a.mp4", some "model load failed"), ("b.mp4", some "model load failed")] ∧
    (tryStage ⟨some "model load failed", "/tmp/t.wav", "ok", .ok ([], 1), none⟩
        "a.mp4").written = none := by
  constructor
  · rw [batch_attempts_every_file.1]
    decide
  · exact batch_attempts_every_file.2 _ "a.mp4" "model load failed" (by decide)

/-- C3 counterexample: on the claim's own input the code yields "it\x27sfine",
not "it\x27s fine" (the numeric entity is deleted, not replaced by a space), and
trimming happens before entity deletion, so deletion can expose trailing
whitespace that the claim's normalize-then-trim order would have removed. -/
theorem cleanText_claim_counterexample :
    cleanText "it&#39;s&#160;fine" ≠ "it's fine" ∧
    cleanText "  abc &#100;  " ≠ "abc" := by decide

/-- C3 amended: the cleaning step first trims leading/trailing whitespace,
then replaces the encoded apostrophe sequence with an apostrophe, then
deletes any remaining numeric character-entity sequences outright; the
claim's input yields "it\x27sfine", and a deleted trailing entity leaves the
whitespace before it in place. -/
theorem cleanText_strip_then_replace_then_delete :
    cleanText "it&#39;s&#160;fine" = "it'sfine" ∧
    cleanText "  abc &#100;  " = "abc " := by decide

/-- C4: the filter accepts a cleaned text exactly when it contains at least
one character outside the fixed noise set; in particular it accepts
"hello", "你好" and "a,b", and rejects the empty text, a noise-only text,
and digit-only text in any script (`\d` covers all Unicode decimal digits:
fullwidth １２３ and Arabic-Indic ٣٤٥ are noise too). -/
theorem acceptText_iff_some_non_noise :
    (∀ t : String, acceptText t = true ↔ ∃ c ∈ t.data, noiseChar c = false) ∧
    acceptText "hello" = true ∧ acceptText "你好" = true ∧ acceptText "a,b" = true ∧
    acceptText "" = false ∧ acceptText "...，。？!123" = false ∧
    acceptText "１２３" = false ∧ acceptText "٣٤٥" = false := by
  refine ⟨fun t => ?_, by decide, by decide, by decide, by decide, by decide,
    by decide, by decide⟩
  have hempty : t.isEmpty = true ↔ t.data = [] := by
    rw [String.isEmpty_iff, String.ext_iff]
  constructor
  · intro h
    rw [acceptText, Bool.and_eq_true, Bool.not_eq_true', Bool.not_eq_true'] at h
    have h2 := h.2
    rw [noiseMatch] at h2
    obtain ⟨c, hc, hnc⟩ := List.all_eq_false.mp h2
    exact ⟨c, hc, by simpa using hnc⟩
  · rintro ⟨c, hc, hnc⟩
    rw [acceptText, Bool.and_eq_true, Bool.not_eq_true', Bool.not_eq_true']
    refine ⟨?_, ?_⟩
    · cases hie : t.isEmpty
      · rfl
      · exfalso
        rw [hempty.mp hie] at hc
        exact List.not_mem_nil c hc
    · rw [noiseMatch]
      exact List.all_eq_false.mpr ⟨c, hc, by simp [hnc]⟩

/-- C5: with a nonzero total duration the subtitle content is exactly the
accepted segments, numbered contiguously from 1 in emission order,
regardless of how many segments were rejected. -/
theorem srt_content_indices_contiguous (total_duration : ℚ) (segs : List Segment)
    (hd : total_duration ≠ 0) :
    srtLoop total_duration segs [] =
      .ok (((segs.filter fun s => acceptText (cleanText s.text)).enumFrom 1).map
        (fun p => mkBlock p.1 (startTimeOf p.2) (endTimeOf p.2) (cleanText p.2.text))) := by
  rw [srtLoop_eq_blocksFrom total_duration hd segs []]
  simp [blocksFrom_eq_enumFrom]

unseal Rat.mul in
/-- C5 witness: three raw segments with the second rejected by the filter
yield exactly two blocks, indexed 1 and 2. -/
theorem srt_content_indices_contiguous_witness :
    (3 : ℚ) ≠ 0 ∧
    srtLoop 3 [⟨0, 1, "hello"⟩, ⟨1, 2, "。。。"⟩, ⟨2, 3, "world"⟩] [] =
      .ok ["1\n00:00:00,000 --> 00:00:01,000\nhello\n",
           "2\n00:00:02,000 --> 00:00:03,000\nworld\n"] := by
  refine ⟨by norm_num, ?_⟩
  rw [srt_content_indices_contiguous 3
    [⟨0, 1, "hello"⟩, ⟨1, 2, "。。。"⟩, ⟨2, 3, "world"⟩] (by norm_num)]
  rfl

unseal Rat.mul Rat.inv in
/-- C6: seconds are converted to integer milliseconds by truncation after
multiplying by 1000, and rendered as HH:MM:SS,mmm with three-digit zero-padded
milliseconds: a segment with start 1.2345 s (= 2469/2000) and end 2.5 s
(= 5/2) yields the timestamps 00:00:01,234 and 00:00:02,500. -/
theorem timestamp_truncation_example :
    startTimeOf ⟨2469 / 2000, 5 / 2, "x"⟩ = "00:00:01,234" ∧
    endTimeOf ⟨2469 / 2000, 5 / 2, "x"⟩ = "00:00:02,500" ∧
    pyInt ((2469 / 2000 : ℚ) * 1000) = 1234 ∧
    pyInt ((5 / 2 : ℚ) * 1000) = 2500 := by
  refine ⟨by decide, by decide, by decide, by decide⟩

/-- C7: with a nonzero total duration, if every segment is rejected by the
filter then no subtitle file is written and the no-valid-segments warning is
logged; otherwise the subtitle file is written exactly once, as a single
write of the full concatenated content, to the derived `.srt` path. -/
theorem write_srt_no_file_or_single_write (segments : List Segment) (fname : String)
    (total_duration : ℚ) (hd : total_duration ≠ 0) :
    ((∀ s ∈ segments, acceptText (cleanText s.text) = false) →
      write_srt segments fname total_duration =
        .ok ⟨none, some ("No valid segments found for " ++ fname)⟩) ∧
    ((∃ s ∈ segments, acceptText (cleanText s.text) = true) →
      write_srt segments fname total_duration =
        .ok ⟨some (srtPathOf fname, String.intercalate "\n" (blocksFrom 0 segments)),
          none⟩) := by
  have hl := srtLoop_eq_blocksFrom total_duration hd segments []
  rw [List.nil_append] at hl
  simp only [List.length_nil] at hl
  constructor
  · intro hall
    have hfil : segments.filter (fun s => acceptText (cleanText s.text)) = [] :=
      List.filter_eq_nil_iff.mpr (fun s hs => by simp [hall s hs])
    have hb : blocksFrom 0 segments = [] := by
      rw [blocksFrom_eq_enumFrom, hfil]
      rfl
    rw [write_srt, hl, hb]
    rfl
  · rintro ⟨s, hs, hacc⟩
    have hmem : s ∈ segments.filter (fun s => acceptText (cleanText s.text)) := by
      rw [List.mem_filter]
      exact ⟨hs, hacc⟩
    have hb : blocksFrom 0 segments ≠ [] := by
      rw [blocksFrom_eq_enumFrom]
      intro hnil
      have h1 := List.map_eq_nil_iff.mp hnil
      have h2 : (segments.filter fun s => acceptText (cleanText s.text)).length = 0 := by
        rw [← List.enumFrom_length (n := 0 + 1), h1]
        rfl
      rw [List.length_eq_zero.mp h2] at hmem
      exact List.not_mem_nil s hmem
    have hbe : (blocksFrom 0 segments).isEmpty = false := List.isEmpty_eq_false.mpr hb
    rw [write_srt, hl]
    simp only [hbe, Bool.not_false, if_true]

/-- C7 witness: one accepted segment leads to the single subtitle write. -/
theorem write_srt_no_file_or_single_write_witness :
    (1 : ℚ) ≠ 0 ∧
    write_srt [⟨0, 1, "hello"⟩] "a.mp4" 1 =
      .ok ⟨some (srtPathOf "a.mp4",
        String.intercalate "\n" (blocksFrom 0 [⟨0, 1, "hello"⟩])), none⟩ := by
  refine ⟨by norm_num, ?_⟩
  exact (write_srt_no_file_or_single_write [⟨0, 1, "hello"⟩] "a.mp4" 1 (by norm_num)).2
    ⟨⟨0, 1, "hello"⟩, by simp, by decide⟩

/-- C8: the recognition call receives no explicit language when the request
is the sentinel "auto" and the language itself otherwise, and it receives
the configured initial prompt exactly when the requested language is "zh". -/
theorem transcribe_language_prompt_args (language initial_prompt_zh : String) :
    transcribeLanguageArg "auto" = none ∧
    (language ≠ "auto" → transcribeLanguageArg language = some language) ∧
    transcribeInitialPromptArg initial_prompt_zh "zh" = some initial_prompt_zh ∧
    (language ≠ "zh" → transcribeInitialPromptArg initial_prompt_zh language = none) := by
  refine ⟨by decide, fun h => ?_, by simp [transcribeInitialPromptArg], fun h => ?_⟩
  · rw [transcribeLanguageArg, if_pos h]
  · rw [transcribeInitialPromptArg, if_neg h]

/-- C8 witness: a language that is neither "auto" nor "zh" is passed through
as the explicit language and gets no initial prompt. -/
theorem transcribe_language_prompt_args_witness :
    ("fr" ≠ "auto" ∧ transcribeLanguageArg "fr" = some "fr") ∧
    ("fr" ≠ "zh" ∧ transcribeInitialPromptArg "prompt-zh" "fr" = none) :=
  ⟨⟨by decide, (transcribe_language_prompt_args "fr" "prompt-zh").2.1 (by decide)⟩,
   ⟨by decide, (transcribe_language_prompt_args "fr" "prompt-zh").2.2.2 (by decide)⟩⟩

/-- C9: fewer than three arguments (model, language, at least one input
file) is a fatal usage error with exit code 1 and the usage message, issued
before any file is processed; with a well-formed argument list `main`
succeeds at the orchestration level and attempts every input file in order. -/
theorem main_usage_error_or_processes_all (envOf : String → Env)
    (args : List String) (fs : FS) :
    (args.length < 3 → main envOf args fs = .error (1, usageMsg)) ∧
    (3 ≤ args.length →
      ∃ out, main envOf args fs = .ok out ∧
        out.2 = (args.drop 2).map (fun f => (f, (tryStage (envOf f) f).err)) ∧
        out.2.length = args.length - 2) := by
  constructor
  · intro h
    rw [main, dif_pos h]
  · intro h
    have h3 : ¬ args.length < 3 := by omega
    rw [main, dif_neg h3]
    refine ⟨_, rfl, ?_, ?_⟩
    · exact batch_snd envOf _ _ (args.drop 2) fs
    · rw [batch_snd envOf _ _ (args.drop 2) fs]
      rw [List.length_map, List.length_drop]

/-- C9 witness: one argument is a usage error; three arguments succeed with
exactly one file attempted. -/
theorem main_usage_error_or_processes_all_witness :
    ((["small"] : List String).length < 3 ∧
      main (fun _ => ⟨some "x", "/tmp/t.wav", "ok", .ok ([], 1), none⟩) ["small"] ∅ =
        .error (1, usageMsg)) ∧
    (3 ≤ (["small", "zh", "a.mp4"] : List String).length ∧
      ∃ out, main (fun _ => (⟨some "x", "/tmp/t.wav", "ok", .ok ([], 1), none⟩ : Env))
          ["small", "zh", "a.mp4"] ∅ = .ok out ∧
        out.2 = ((["small", "zh", "a.mp4"] : List String).drop 2).map
          (fun f => (f, (tryStage ((fun _ => (⟨some "x", "/tmp/t.wav", "ok",
            .ok ([], 1), none⟩ : Env)) f) f).err)) ∧
        out.2.length = (["small", "zh", "a.mp4"] : List String).length - 2) := by
  constructor
  · exact ⟨by decide,
      (main_usage_error_or_processes_all
        (fun _ => ⟨some "x", "/tmp/t.wav", "ok", .ok ([], 1), none⟩) ["small"] ∅).1
        (by decide)⟩
  · exact ⟨by decide,
      (main_usage_error_or_processes_all
        (fun _ => ⟨some "x", "/tmp/t.wav", "ok", .ok ([], 1), none⟩)
        ["small", "zh", "a.mp4"] ∅).2 (by decide)⟩

/-- C10: a transcription result with at least one segment but total duration
0 makes the progress computation divide by zero; the raised error is caught
and logged, no subtitle file is written, the temporary file is still
removed, and the batch continues with the remaining files. -/
theorem zero_duration_division_error_contained (env : Env)
    (input_file model_name language : String) (fs : FS)
    (s0 : Segment) (rest : List Segment)
    (hml : env.modelLoadError = none) (hff : env.ffmpegResult = "ok")
    (htr : env.transcribeResult = .ok (s0 :: rest, 0)) :
    (tryStage env input_file).err = some zeroDivMsg ∧
    (process_file env input_file model_name language fs).2 = some zeroDivMsg ∧
    env.tmpPath ∉ (process_file env input_file model_name language fs).1 ∧
    (srtPathOf input_file ∉ fs →
      srtPathOf input_file ∉ (process_file env input_file model_name language fs).1) ∧
    (∀ (envOf : String → Env) (files : List String), envOf input_file = env →
      (batch envOf model_name language (input_file :: files) fs).2 =
        (input_file, some zeroDivMsg) ::
          files.map (fun f => (f, (tryStage (envOf f) f).err))) := by
  have hts : tryStage env input_file = ⟨some zeroDivMsg, true, true, none⟩ := by
    rw [tryStage, hml, hff, htr]
    simp [write_srt, srtLoop]
  have hpf : process_file env input_file model_name language fs =
      ((insert env.tmpPath fs).erase env.tmpPath, some zeroDivMsg) := by
    rw [process_file, hts]
    simp [Finset.mem_insert_self]
  refine ⟨by rw [hts], by rw [hpf], ?_, ?_, ?_⟩
  · rw [hpf]
    exact Finset.not_mem_erase _ _
  · intro hno hmem
    rw [hpf] at hmem
    rcases Finset.mem_erase.mp hmem with ⟨hne, hmem2⟩
    rcases Finset.mem_insert.mp hmem2 with heq | hin
    · exact hne heq
    · exact hno hin
  · intro envOf files henv
    show (input_file,
        (process_file (envOf input_file) input_file model_name language fs).2) ::
        (batch envOf model_name language files
          (process_file (envOf input_file) input_file model_name language fs).1).2 = _
    rw [henv, hpf, batch_snd]

/-- C10 witness: a one-segment transcription with duration 0 is logged as a
float division by zero, leaves no temporary file behind, and the next file
of the batch is still attempted. -/
theorem zero_duration_division_error_contained_witness :
    (process_file ⟨none, "/tmp/t.wav", "ok", .ok ([⟨0, 1, "hello"⟩], 0), none⟩
        "v.mp4" "small" "zh" ∅).2 = some zeroDivMsg ∧
    "/tmp/t.wav" ∉ (process_file ⟨none, "/tmp/t.wav", "ok", .ok ([⟨0, 1, "hello"⟩], 0), none⟩
        "v.mp4" "small" "zh" ∅).1 ∧
    (batch (fun _ => ⟨none, "/tmp/t.wav", "ok", .ok ([⟨0, 1, "hello"⟩], 0), none⟩)
        "small" "zh" ["v.mp4", "w.mp4"] ∅).2 =
      [("v.mp4", some zeroDivMsg), ("w.mp4", some zeroDivMsg)] := by
  have h := zero_duration_division_error_contained
    ⟨none, "/tmp/t.wav", "ok", .ok ([⟨0, 1, "hello"⟩], 0), none⟩
    "v.mp4" "small" "zh" ∅ ⟨0, 1, "hello"⟩ [] rfl rfl rfl
  refine ⟨h.2.1, h.2.2.1, ?_⟩
  rw [h.2.2.2.2 (fun _ => ⟨none, "/tmp/t.wav", "ok", .ok ([⟨0, 1, "hello"⟩], 0), none⟩)
    ["w.mp4"] rfl]
  decide
end Stt
